import Mathlib

/-
Verification development for the scrappers repository (Facebook Ad Library
scraper).  The definitions below are a shallow embedding of the extraction
core in src/scrapers/facebook_scraper.py, src/scrapers/base.py and
src/config.py: pure text parsers, the thumbnail candidate scorer, the
per-card orchestrator loop, the DOM ancestor-walk card locator, the scroll
loop and the search-URL builder.  Machine text is modelled as Lean String
(Python str), regular-expression searches are modelled by a small
backtracking matcher over token lists that mirrors the concrete patterns
used by the source, and Python float arithmetic in the image scorer is
modelled exactly over the rationals.
-/

/-! ## String utilities (Python str semantics) -/

/-- The whitespace characters matched by Python's str.strip and by the
regular-expression class backslash-s on the ASCII range. -/
def pyWhite (c : Char) : Bool :=
  c = ' ' || c = '\t' || c = '\n' || c = '\r' || c = '\x0b' || c = '\x0c'

/-- Does needle occur as a contiguous sublist of hay? -/
def listContains (needle : List Char) : List Char → Bool
  | [] => needle.isEmpty
  | c :: cs => needle.isPrefixOf (c :: cs) || listContains needle cs

/-- Python substring containment: needle in hay. -/
def strContains (hay needle : String) : Bool :=
  listContains needle.data hay.data

/-- Python str.startswith. -/
def strStarts (s pre : String) : Bool :=
  pre.data.isPrefixOf s.data

/-- Python str.lower restricted to the ASCII letters that occur in the
source's patterns and URLs. -/
def lcStr (l : List Char) : String :=
  String.mk (l.map Char.toLower)

/-- Drop leading characters satisfying p. -/
def dropWhileP (p : Char → Bool) : List Char → List Char
  | [] => []
  | c :: cs => if p c then dropWhileP p cs else c :: cs

/-- Python str.strip on a character list. -/
def pyStripL (l : List Char) : List Char :=
  ((dropWhileP pyWhite l).reverse |> dropWhileP pyWhite).reverse

/-- Python str.strip. -/
def pyStrip (s : String) : String :=
  String.mk (pyStripL s.data)

/-- Collapse every run of whitespace into a single space, the effect of
re.sub(backslash-s+, single space, ...). -/
def collapseWs : List Char → List Char
  | [] => []
  | [c] => if pyWhite c then [' '] else [c]
  | c :: c2 :: cs =>
      if pyWhite c then
        if pyWhite c2 then collapseWs (c2 :: cs)
        else ' ' :: collapseWs (c2 :: cs)
      else c :: collapseWs (c2 :: cs)

/-! ## A small regular-expression engine

The source only uses patterns built from literals, digit runs with bounded
or unbounded repetition, whitespace runs, ASCII-letter runs, a
non-newline run, and (inside strptime) an alternation of month names.
Each pattern is a token list; matching is greedy with backtracking, which
coincides with CPython's re semantics on these patterns.  A fuel argument
(one unit per token) keeps every function structurally recursive so that
concrete runs reduce inside the kernel. -/

/-- One token of a compiled pattern. -/
inductive Tok where
  /-- A literal string. -/
  | lit (s : List Char)
  /-- A repeated character class: at least lo and (when given) at most hi
  characters satisfying p; cap records whether the run is a capture group. -/
  | rep (p : Char → Bool) (lo : Nat) (hi : Option Nat) (cap : Bool)
  /-- A capturing alternation of literal words, matched case-insensitively
  (used for strptime month names). -/
  | alt (names : List (List Char))

/-- Character comparison, optionally case-insensitive (re.IGNORECASE). -/
def charEq (ci : Bool) (a b : Char) : Bool :=
  if ci then a.toLower = b.toLower else a = b

/-- Match a literal prefix, returning the rest of the input. -/
def stripLit (ci : Bool) : List Char → List Char → Option (List Char)
  | [], s => some s
  | _ :: _, [] => none
  | p :: ps, c :: cs => if charEq ci p c then stripLit ci ps cs else none

/-- Length of the maximal prefix satisfying p. -/
def countP (p : Char → Bool) : List Char → Nat
  | [] => 0
  | c :: cs => if p c then countP p cs + 1 else 0

/-- Backtracking matcher.  Returns the list of captured groups in
left-to-right order when the token list matches a prefix of the input
(all of it when full is true).  Fuel is one unit per token. -/
def matchT (ci full : Bool) : Nat → List Tok → List Char → Option (List (List Char))
  | 0, _, _ => none
  | _ + 1, [], s => if full then (if s.isEmpty then some [] else none) else some []
  | f + 1, Tok.lit l :: rest, s =>
      match stripLit ci l s with
      | some s2 => matchT ci full f rest s2
      | none => none
  | f + 1, Tok.rep p lo hi cap :: rest, s =>
      let avail := countP p s
      let maxK := match hi with | some h => min h avail | none => avail
      if maxK < lo then none
      else
        -- greedy: try k = maxK, maxK-1, ..., lo
        (List.range (maxK + 1 - lo)).findSome? fun i =>
          let k := maxK - i
          match matchT ci full f rest (s.drop k) with
          | some gs => some (if cap then s.take k :: gs else gs)
          | none => none
  | f + 1, Tok.alt names :: rest, s =>
      names.findSome? fun nm =>
        match stripLit true nm s with
        | some s2 =>
            match matchT ci full f rest s2 with
            | some gs => some (s.take nm.length :: gs)
            | none => none
        | none => none

/-- Match the whole token list against a prefix of the input. -/
def matchToks (ci : Bool) (toks : List Tok) (s : List Char) : Option (List (List Char)) :=
  matchT ci false (toks.length + 1) toks s

/-- Match the whole token list against the whole input (strptime). -/
def matchFull (ci : Bool) (toks : List Tok) (s : List Char) : Option (List (List Char)) :=
  matchT ci true (toks.length + 1) toks s

/-- re.search: try the pattern at every start position, leftmost first. -/
def searchToks (ci : Bool) (toks : List Tok) : List Char → Option (List (List Char))
  | [] => matchToks ci toks []
  | c :: cs =>
      match matchToks ci toks (c :: cs) with
      | some gs => some gs
      | none => searchToks ci toks cs

/-- Numeric value of a captured digit run. -/
def digitsVal (l : List Char) : Nat :=
  l.foldl (fun acc c => 10 * acc + (c.toNat - 48)) 0

/-- Shorthand: a capturing digit run with bounds (backslash-d{lo,hi}). -/
def dkk (lo hi : Nat) : Tok := Tok.rep Char.isDigit lo (some hi) true

/-- Shorthand: a capturing unbounded digit run (backslash-d+). -/
def dplus : Tok := Tok.rep Char.isDigit 1 none true

/-- Shorthand: backslash-s* (non-capturing). -/
def ws0 : Tok := Tok.rep pyWhite 0 none false

/-- Shorthand: backslash-s+ (non-capturing). -/
def ws1 : Tok := Tok.rep pyWhite 1 none false

/-- Shorthand: a literal token. -/
def tlit (s : String) : Tok := Tok.lit s.data

/-- Shorthand: a capturing ASCII-letter run ([A-Za-z]+). -/
def alphaCap : Tok := Tok.rep (fun c => ('A' ≤ c && c ≤ 'Z') || ('a' ≤ c && c ≤ 'z')) 1 none true

/-- Shorthand: a capturing non-newline run ([^ newline ]+). -/
def notNlCap : Tok := Tok.rep (fun c => c ≠ '\n') 1 none true

/-! ## Text parsers (facebook_scraper.py)

Shallow embedding of FacebookScraper._extract_library_id_simple,
_extract_start_date_simple, _parse_any_date_format and
_extract_platforms_simple.  Every pattern below is the token-list
compilation of the corresponding regular expression literal in the
source, in the same order. -/

/-- Zero-padded decimal rendering, the effect of an f-string 0nd format. -/
def padNum (w n : Nat) : String :=
  let s := toString n
  if s.length < w then String.mk (List.replicate (w - s.length) '0') ++ s else s

/-- The yyyy-MM-dd output format built by the source's f-strings. -/
def fmtYmd (y m d : Nat) : String :=
  padNum 4 y ++ "-" ++ padNum 2 m ++ "-" ++ padNum 2 d

/-- The five Korean detailed date patterns of _extract_start_date_simple,
in source order. -/
def koreanDetailedPatterns : List (List Tok) :=
  [ [dkk 4 4, tlit ".", ws0, dkk 1 2, tlit ".", ws0, dkk 1 2, tlit ".에", ws1, tlit "게재", ws1, tlit "시작함"]
  , [dkk 4 4, tlit ".", ws0, dkk 1 2, tlit ".", ws0, dkk 1 2, tlit ".에", ws1, tlit "게재", ws1, tlit "시작"]
  , [dkk 4 4, tlit ".", ws0, dkk 1 2, tlit ".", ws0, dkk 1 2, tlit "."]
  , [dkk 4 4, tlit "년", ws0, dkk 1 2, tlit "월", ws0, dkk 1 2, tlit "일"]
  , [dkk 4 4, tlit "년", ws0, dkk 1 2, tlit "월", ws0, dkk 1 2, tlit "일에", ws1, tlit "게재", ws1, tlit "시작"]
  ]

/-- First English pattern: Started running on Month Day, Year. -/
def engPattern1 : List Tok :=
  [tlit "Started running on", ws1, alphaCap, ws1, dkk 1 2, tlit ",", ws1, dkk 4 4]

/-- Second English pattern: Started running on Day Month Year. -/
def engPattern2 : List Tok :=
  [tlit "Started running on", ws1, dkk 1 2, ws1, alphaCap, ws1, dkk 4 4]

/-- The month_map dictionary of _extract_start_date_simple. -/
def monthMapEntries : List (String × Nat) :=
  [ ("jan", 1), ("january", 1), ("feb", 2), ("february", 2), ("mar", 3), ("march", 3)
  , ("apr", 4), ("april", 4), ("may", 5), ("jun", 6), ("june", 6)
  , ("jul", 7), ("july", 7), ("aug", 8), ("august", 8), ("sep", 9), ("september", 9)
  , ("oct", 10), ("october", 10), ("nov", 11), ("november", 11), ("dec", 12), ("december", 12) ]

/-- month_map.get(name): lookup of a lowercased month name. -/
def monthLookup (name : String) : Option Nat :=
  (monthMapEntries.find? (fun e => e.1 == name)).map (fun e => e.2)

/-- The month-only fallback patterns (day defaults to 1), in source order. -/
def monthOnlyPatterns : List (List Tok) :=
  [ [dkk 4 4, tlit "년", ws0, dkk 1 2, tlit "월"]
  , [dkk 4 4, tlit ".", ws0, dkk 1 2, tlit "."]
  ]

/-- The generic label-colon patterns, in source order. -/
def genericPatterns : List (List Tok) :=
  [ [tlit "게재", ws1, tlit "시작일:", ws0, notNlCap]
  , [tlit "시작일:", ws0, notNlCap]
  , [tlit "게재", ws1, tlit "시작:", ws0, notNlCap]
  ]

/-- Gregorian leap year, as validated by datetime. -/
def isLeap (y : Nat) : Bool :=
  (y % 4 = 0 && y % 100 ≠ 0) || y % 400 = 0

/-- Number of days of month m in year y (31 when m is out of range; the
range of m is checked separately). -/
def daysInMonth (y m : Nat) : Nat :=
  if m = 2 then (if isLeap y then 29 else 28)
  else if m = 4 || m = 6 || m = 9 || m = 11 then 30
  else 31

/-- The date validation performed by the datetime constructor inside
strptime: out-of-range components raise ValueError. -/
def validDate (y m d : Nat) : Bool :=
  1 ≤ y && y ≤ 9999 && 1 ≤ m && m ≤ 12 && 1 ≤ d && d ≤ daysInMonth y m

/-- Full English month names, the strptime %B alternation (matched
case-insensitively). -/
def fullMonthNames : List (String × Nat) :=
  [ ("january", 1), ("february", 2), ("march", 3), ("april", 4), ("may", 5), ("june", 6)
  , ("july", 7), ("august", 8), ("september", 9), ("october", 10), ("november", 11), ("december", 12) ]

/-- The %B token: alternation of the full month names. -/
def monthAlt : Tok := Tok.alt (fullMonthNames.map (fun e => e.1.data))

/-- strptime %Y: exactly four digits. -/
def yTok : Tok := dkk 4 4

/-- strptime %m / %d: one or two digits. -/
def mdTok : Tok := dkk 1 2

/-- How a format's capture list is turned into (year, month, day). -/
inductive FmtKind where
  /-- captures are [year, month, day] -/
  | ymd
  /-- captures are [month name, day, year] (%B %d, %Y) -/
  | bdy
  /-- captures are [day, month name, year] (%d %B %Y) -/
  | dby
  /-- captures are [month, day, year] (%m/%d/%Y) -/
  | mdy
  /-- captures are [day, month, year] (%d/%m/%Y) -/
  | dmy

/-- The formats_to_try list of _parse_any_date_format, compiled: literal
whitespace in a strptime format matches one-or-more whitespace. -/
def strptimeFormats : List (List Tok × FmtKind) :=
  [ ([yTok, tlit "-", mdTok, tlit "-", mdTok], FmtKind.ymd)                     -- %Y-%m-%d
  , ([yTok, tlit ".", mdTok, tlit ".", mdTok], FmtKind.ymd)                     -- %Y.%m.%d
  , ([yTok, tlit "/", mdTok, tlit "/", mdTok], FmtKind.ymd)                     -- %Y/%m/%d
  , ([yTok, tlit "년", ws1, mdTok, tlit "월", ws1, mdTok, tlit "일"], FmtKind.ymd) -- Korean ymd
  , ([yTok, tlit ".", ws1, mdTok, tlit ".", ws1, mdTok, tlit "."], FmtKind.ymd) -- %Y. %m. %d.
  , ([monthAlt, ws1, mdTok, tlit ",", ws1, yTok], FmtKind.bdy)                  -- %B %d, %Y
  , ([mdTok, ws1, monthAlt, ws1, yTok], FmtKind.dby)                            -- %d %B %Y
  , ([mdTok, tlit "/", mdTok, tlit "/", yTok], FmtKind.mdy)                     -- %m/%d/%Y
  , ([mdTok, tlit "/", mdTok, tlit "/", yTok], FmtKind.dmy)                     -- %d/%m/%Y
  ]

/-- Turn a format's captures into (year, month, day); month names go
through the full-month-name table. -/
def decodeCaptures (k : FmtKind) (gs : List (List Char)) : Option (Nat × Nat × Nat) :=
  match k, gs with
  | FmtKind.ymd, [y, m, d] => some (digitsVal y, digitsVal m, digitsVal d)
  | FmtKind.bdy, [b, d, y] =>
      ((fullMonthNames.find? (fun e => e.1 == lcStr b)).map (fun e => e.2)).map
        (fun m => (digitsVal y, m, digitsVal d))
  | FmtKind.dby, [d, b, y] =>
      ((fullMonthNames.find? (fun e => e.1 == lcStr b)).map (fun e => e.2)).map
        (fun m => (digitsVal y, m, digitsVal d))
  | FmtKind.mdy, [m, d, y] => some (digitsVal y, digitsVal m, digitsVal d)
  | FmtKind.dmy, [d, m, y] => some (digitsVal y, digitsVal m, digitsVal d)
  | _, _ => none

/-- Try the strptime formats in order; the first that matches the whole
cleaned string and yields a calendar-valid date wins. -/
def tryStrptimeFormats : List (List Tok × FmtKind) → List Char → Option String
  | [], _ => none
  | (toks, k) :: rest, s =>
      match matchFull true toks s with
      | some gs =>
          match decodeCaptures k gs with
          | some (y, m, d) =>
              if validDate y m d then some (fmtYmd y m d)
              else tryStrptimeFormats rest s
          | none => tryStrptimeFormats rest s
      | none => tryStrptimeFormats rest s

/-- FacebookScraper._parse_any_date_format: clean the string (strip, then
collapse whitespace runs to single spaces) and try the fixed list of
strptime formats, returning yyyy-MM-dd or the empty string. -/
def parse_any_date_format (date_str : String) : String :=
  let cleaned := collapseWs (pyStripL date_str.data)
  (tryStrptimeFormats strptimeFormats cleaned).getD ""

/-- The Korean detailed-pattern loop of _extract_start_date_simple.  The
source wraps its return in try/except ValueError, but formatting integers
with an f-string cannot raise, so the first matching pattern always
returns. -/
def tryKoreanDetailed : List (List Tok) → List Char → Option String
  | [], _ => none
  | p :: rest, s =>
      match searchToks false p s with
      | some (ys :: ms :: ds :: _) =>
          some (fmtYmd (digitsVal ys) (digitsVal ms) (digitsVal ds))
      | some _ => none  -- unreachable: every detailed pattern has three groups
      | none => tryKoreanDetailed rest s

/-- Second iteration of the English-pattern loop (Day Month Year). -/
def tryEnglishSecond (s : List Char) : Option String :=
  match searchToks true engPattern2 s with
  | some (ds :: mn :: ys :: _) =>
      match monthLookup (lcStr mn) with
      | some m => some (fmtYmd (digitsVal ys) m (digitsVal ds))
      | none => none
  | _ => none

/-- The English-pattern loop: pattern 1 (Month Day, Year) falls through to
pattern 2 when it does not match or its month name is unknown. -/
def tryEnglish (s : List Char) : Option String :=
  match searchToks true engPattern1 s with
  | some (mn :: ds :: ys :: _) =>
      match monthLookup (lcStr mn) with
      | some m => some (fmtYmd (digitsVal ys) m (digitsVal ds))
      | none => tryEnglishSecond s
  | _ => tryEnglishSecond s

/-- The month-only fallback loop (day set to 1). -/
def tryMonthOnly : List (List Tok) → List Char → Option String
  | [], _ => none
  | p :: rest, s =>
      match searchToks false p s with
      | some (ys :: ms :: _) => some (fmtYmd (digitsVal ys) (digitsVal ms) 1)
      | some _ => none  -- unreachable: both month-only patterns have two groups
      | none => tryMonthOnly rest s

/-- The generic label-colon loop: the captured free text is stripped and
re-parsed by _parse_any_date_format; an empty parse falls through to the
next generic pattern. -/
def tryGeneric : List (List Tok) → List Char → Option String
  | [], _ => none
  | p :: rest, s =>
      match searchToks false p s with
      | some (r :: _) =>
          let parsed := parse_any_date_format (pyStrip (String.mk r))
          if parsed ≠ "" then some parsed else tryGeneric rest s
      | _ => tryGeneric rest s

/-- FacebookScraper._extract_start_date_simple: ordered rule groups,
first match wins, empty string when nothing matches. -/
def extract_start_date_simple (text : String) : String :=
  let s := text.data
  match tryKoreanDetailed koreanDetailedPatterns s with
  | some r => r
  | none =>
    match tryEnglish s with
    | some r => r
    | none =>
      match tryMonthOnly monthOnlyPatterns s with
      | some r => r
      | none => (tryGeneric genericPatterns s).getD ""

/-- The four label patterns of _extract_library_id_simple, in source
order. -/
def libraryIdPatterns : List (List Tok) :=
  [ [tlit "라이브러리 ID:", ws0, dplus]
  , [tlit "Library ID:", ws0, dplus]
  , [tlit "라이브러리ID:", ws0, dplus]
  , [tlit "LibraryID:", ws0, dplus]
  ]

/-- The library-id pattern loop. -/
def tryLibraryId : List (List Tok) → List Char → Option String
  | [], _ => none
  | p :: rest, s =>
      match searchToks false p s with
      | some (g :: _) => some (pyStrip (String.mk g))
      | _ => tryLibraryId rest s

/-- FacebookScraper._extract_library_id_simple: the captured digit run of
the first matching label pattern, or the empty string. -/
def extract_library_id_simple (text : String) : String :=
  (tryLibraryId libraryIdPatterns text.data).getD ""

/-- FacebookScraper._extract_platforms_simple: literal substring checks in
a fixed order; the Korean platform label contributes "Facebook"; default
["Facebook"] when nothing matched. -/
def extract_platforms_simple (text : String) : List String :=
  let platforms : List String := []
  let platforms := if strContains text "Facebook" || strContains text "facebook"
    then platforms ++ ["Facebook"] else platforms
  let platforms := if strContains text "Instagram" || strContains text "instagram"
    then platforms ++ ["Instagram"] else platforms
  let platforms := if strContains text "플랫폼"
    then platforms ++ ["Facebook"] else platforms
  if platforms = [] then ["Facebook"] else platforms

/-! ## Image candidate scorer (FacebookScraper._extract_thumbnail_url)

A card's img descendants are modelled by the attributes the source reads
from them.  Width/height attributes are modelled as the numbers produced
by int(attr or '0'); the bounding-rect lookup is an Option because the
JavaScript call is wrapped in try/except.  Python float arithmetic is
modelled exactly over the rationals. -/

/-- One img element of a card, as read by the source. -/
structure Img where
  /-- The src attribute ("" when absent). -/
  src : String
  /-- int of the width attribute, or 0. -/
  attr_width : Nat
  /-- int of the height attribute, or 0. -/
  attr_height : Nat
  /-- naturalWidth from JavaScript, 0 when unavailable. -/
  natural_width : Nat
  /-- naturalHeight from JavaScript, 0 when unavailable. -/
  natural_height : Nat
  /-- class attribute of the parent element ("" when the lookup failed). -/
  parent_classes : String
  /-- Bounding-rect y coordinate; none when the JavaScript call failed. -/
  rect_y : Option Int
deriving DecidableEq

/-- The profile-picture URL fingerprints skipped by the source (matched
against the lowercased src). -/
def profileUrlPatterns : List String :=
  ["/s148x148_", "/s60x60_", "/s32x32_", "profile_picture",
   "/p148x148/", "/p60x60/", "/c148.148.", "/c60.60."]

/-- The parent-class keywords that mark an image as a profile/avatar. -/
def profileParentKeywords : List String :=
  ["profile", "avatar", "page-pic", "page_pic"]

/-- Resolved width: the natural dimension overrides the attribute when
larger. -/
def resolvedWidth (i : Img) : Nat :=
  if i.natural_width > i.attr_width then i.natural_width else i.attr_width

/-- Resolved height: the natural dimension overrides the attribute when
larger. -/
def resolvedHeight (i : Img) : Nat :=
  if i.natural_height > i.attr_height then i.natural_height else i.attr_height

/-- The filter chain applied to each img before scoring, in source order:
empty/data URIs, non-CDN sources, profile-picture URL fingerprints,
profile-like parent classes, and the 80px icon-size floor. -/
def acceptedImg (i : Img) : Bool :=
  if i.src = "" || strStarts i.src "data:" then false
  else if !(strContains i.src "scontent" || strContains i.src "fbcdn") then false
  else if profileUrlPatterns.any (fun p => strContains (lcStr i.src.data) p) then false
  else if profileParentKeywords.any (fun k => strContains (lcStr i.parent_classes.data) k) then false
  else
    let w := resolvedWidth i
    let h := resolvedHeight i
    if w > 0 && h > 0 && (w < 80 || h < 80) then false
    else true

/-- size_score = width * height. -/
def sizeScore (i : Img) : Nat := resolvedWidth i * resolvedHeight i

/-- aspect_ratio_score: the max/min dimension quotient when it exceeds
1.2, otherwise 0 (and 0 when either dimension is 0). -/
def aspectScore (i : Img) : ℚ :=
  let w := resolvedWidth i
  let h := resolvedHeight i
  if w > 0 && h > 0 then
    let q : ℚ := ((max w h : Nat) : ℚ) / ((min w h : Nat) : ℚ)
    if q > 1.2 then q else 0
  else 0

/-- size_bonus: 1 when the area exceeds 50000. -/
def sizeBonus (i : Img) : ℚ := if sizeScore i > 50000 then 1 else 0

/-- position_score: 1 when the bounding rect exists and its y coordinate
exceeds 50. -/
def positionScore (i : Img) : ℚ :=
  match i.rect_y with
  | some y => if y > 50 then 1 else 0
  | none => 0

/-- total_score = size_score + aspect*10000 + size_bonus*20000 +
position*5000, exactly the source's arithmetic. -/
def totalScore (i : Img) : ℚ :=
  (sizeScore i : ℚ) + aspectScore i * 10000 + sizeBonus i * 20000 + positionScore i * 5000

/-- First maximum of totalScore: the source stably sorts candidates by
descending total_score and takes the head, which keeps the earliest
candidate among ties. -/
def pickBestImg : Img → List Img → Img
  | best, [] => best
  | best, c :: cs => pickBestImg (if totalScore c > totalScore best then c else best) cs

/-- FacebookScraper._extract_thumbnail_url over the card's img list:
filter, score, and return the URL of the best candidate (empty string
when no candidate survives). -/
def extract_thumbnail_url (imgs : List Img) : String :=
  match imgs.filter acceptedImg with
  | [] => ""
  | c :: cs => (pickBestImg c cs).src

/-! ## Learn-more link extractor (FacebookScraper._extract_learn_more_url) -/

/-- An anchor element: its rendered text and href attribute. -/
structure Link where
  /-- The element text. -/
  text : String
  /-- The href attribute ("" when absent). -/
  href : String
deriving DecidableEq

/-- First non-empty href among the selector-matched learn-more buttons. -/
def firstNonemptyHref : List String → Option String
  | [] => none
  | h :: rest => if h ≠ "" then some h else firstNonemptyHref rest

/-- Second strategy: first anchor whose href is non-empty and whose text
contains one of the call-to-action phrases. -/
def firstCallToAction : List Link → Option String
  | [] => none
  | l :: rest =>
      if l.href ≠ "" && (strContains l.text "Learn More" || strContains l.text "자세히 알아보기" || strContains l.text "Shop Now")
      then some l.href else firstCallToAction rest

/-- FacebookScraper._extract_learn_more_url. -/
def extract_learn_more_url (button_hrefs : List String) (anchors : List Link) : String :=
  match firstNonemptyHref button_hrefs with
  | some h => h
  | none => (firstCallToAction anchors).getD ""

/-! ## Multi-version modal extractor (FacebookScraper._extract_multiple_versions)

The modal interaction is modelled by the outcomes of its steps; opened
records whether the detail overlay was opened and close_attempted whether
_close_modal was invoked before returning. -/

/-- Outcomes of the modal steps for one card. -/
structure ModalCtx where
  /-- A "has multiple versions" indicator element was found. -/
  has_indicator : Bool
  /-- A "See ad details" button was found. -/
  has_details_button : Bool
  /-- safe_click on the button succeeded. -/
  click_ok : Bool
  /-- srcs of the img elements found in the opened modal. -/
  modal_images : List String
  /-- The collection step after opening raised an exception. -/
  collect_throws : Bool
deriving DecidableEq

/-- Result of _extract_multiple_versions plus the overlay bookkeeping. -/
structure MVResult where
  /-- The deduplicated image URLs returned. -/
  urls : List String
  /-- The detail overlay was opened. -/
  opened : Bool
  /-- _close_modal was invoked before returning. -/
  close_attempted : Bool
deriving DecidableEq

/-- FacebookScraper._extract_multiple_versions: early returns before the
click leave the overlay closed; after a successful click the overlay is
closed on the normal path and in the except handler.  list(set(...)) is
modelled by first-occurrence deduplication. -/
def extract_multiple_versions (ctx : ModalCtx) : MVResult :=
  if !ctx.has_indicator then ⟨[], false, false⟩
  else if !ctx.has_details_button then ⟨[], false, false⟩
  else if !ctx.click_ok then ⟨[], false, false⟩
  else if ctx.collect_throws then ⟨[], true, true⟩
  else
    let urls := (ctx.modal_images.filter
      (fun src => src ≠ "" && (strContains src "scontent" || strContains src "fbcdn"))).eraseDups
    ⟨urls, true, true⟩

/-! ## Card orchestrator (FacebookScraper.scrape_ads / _scrape_ad_card)

A card element is modelled by the values the per-card extraction reads
from it: its rendered text (which may raise), its img descendants, the
learn-more elements and the modal-step outcomes. -/

deriving instance DecidableEq for Except

/-- One located ad-card element. -/
structure Card where
  /-- card_element.text: Except models a raised WebDriver exception. -/
  text : Except String String
  /-- img descendants, as read by the thumbnail extractor. -/
  imgs : List Img
  /-- hrefs of the selector-matched learn-more buttons. -/
  button_hrefs : List String
  /-- all anchor descendants. -/
  anchors : List Link
  /-- outcomes of the modal steps for this card. -/
  mv_ctx : ModalCtx
deriving DecidableEq

/-- One emitted ad record. -/
structure AdData where
  /-- The platform tag, 'facebook' here. -/
  platform : String
  /-- Timestamp of extraction (abstract clock value). -/
  scraped_at : Nat
  /-- The dedup key. -/
  library_id : String
  /-- Canonicalized start date or "". -/
  start_date : String
  /-- Platform list, never empty. -/
  platforms : List String
  /-- Thumbnail URL or "". -/
  thumbnail_url : String
  /-- Outbound link or "". -/
  learn_more_url : String
  /-- Additional version images; the call that would fill this is
  disabled in the source, so it stays empty. -/
  multiple_versions_images : List String
deriving DecidableEq

/-- FacebookScraper._scrape_ad_card: the whole body runs under
try/except, so a raised exception from the text read yields None (the
error is only logged, not recorded).  Empty text and missing library id
also yield None.  The multiple-versions extraction call is commented out
in the source, so multiple_versions_images is always the empty list. -/
def scrape_ad_card (now : Nat) (card : Card) : Option AdData :=
  match card.text with
  | Except.error _ => none
  | Except.ok card_text =>
      if card_text = "" then none
      else
        let lid := extract_library_id_simple card_text
        if lid = "" then none
        else some
          { platform := "facebook"
          , scraped_at := now
          , library_id := lid
          , start_date := extract_start_date_simple card_text
          , platforms := extract_platforms_simple card_text
          , thumbnail_url := extract_thumbnail_url card.imgs
          , learn_more_url := extract_learn_more_url card.button_hrefs card.anchors
          , multiple_versions_images := [] }

/-- The orchestrator's mutable run state: the seen-set, the running
total, the error list and the records yielded so far. -/
structure ScrapeState where
  /-- self.processed_library_ids (insertion order kept). -/
  processed_library_ids : List String
  /-- self.total_scraped. -/
  total_scraped : Nat
  /-- self.errors. -/
  errors : List String
  /-- The records yielded so far, in order. -/
  yielded : List AdData
deriving DecidableEq

/-- The orchestrator state at the start of a run. -/
def initState : ScrapeState := ⟨[], 0, [], []⟩

/-- One iteration of the per-card loop in scrape_ads.  scrape_ad_card
never raises in this model (its Python counterpart catches its own
exceptions), so the loop's except branch — the only place that appends to
self.errors — is never taken for extraction faults. -/
def scrape_ads_step (now : Nat) (st : ScrapeState) (ic : Nat × Card) : ScrapeState :=
  match scrape_ad_card now ic.2 with
  | none => st
  | some ad =>
      if ad.library_id ≠ "" then
        if ad.library_id ∈ st.processed_library_ids then st
        else
          { processed_library_ids := st.processed_library_ids ++ [ad.library_id]
          , total_scraped := st.total_scraped + 1
          , errors := st.errors
          , yielded := st.yielded ++ [ad] }
      else st

/-- The per-card loop of scrape_ads over the located cards. -/
def scrape_ads_run (now : Nat) (cards : List Card) (st : ScrapeState) : ScrapeState :=
  (cards.enum).foldl (scrape_ads_step now) st

/-! ## DOM card locator (FacebookScraper._find_ad_cards / _is_complete_ad_card)

A marker element is modelled together with its ancestor chain (parent
first).  The walk mirrors the source's loop: at most five iterations,
stopping at a body element, testing each parent with
_is_complete_ad_card and accepting the first that qualifies. -/

/-- A DOM element as read by the locator: its tag name and full rendered
text. -/
structure Elem where
  /-- element.tag_name. -/
  tag_name : String
  /-- element.text; the source's try/except around the read is not
  modelled because reading a plain field cannot fail here. -/
  text : String
deriving DecidableEq

/-- FacebookScraper._is_complete_ad_card: the text must contain a
library-id label and either one of the literal year strings "2025"/"2024"
or a platform token. -/
def is_complete_ad_card (e : Elem) : Bool :=
  let t := e.text
  let has_library_id := strContains t "라이브러리 ID:" || strContains t "Library ID:"
  let has_date := strContains t "2025" || strContains t "2024"
  let has_platforms := strContains t "Facebook" || strContains t "Instagram" || strContains t "플랫폼"
  has_library_id && (has_date || has_platforms)

/-- The ancestor walk of _find_ad_cards for one marker element: up to
fuel iterations, break when the current element is the body, test the
parent, accept the first complete parent. -/
def find_card_for_marker : Elem → List Elem → Nat → Option Elem
  | _, _, 0 => none
  | current, ancestors, fuel + 1 =>
      if current.tag_name = "body" then none
      else
        match ancestors with
        | [] => none
        | parent :: rest =>
            if is_complete_ad_card parent then some parent
            else find_card_for_marker parent rest fuel

/-- The parents the walk examines, independent of the acceptance
predicate: the prefix of the ancestor chain cut at the fuel bound and at
a body element. -/
def tested_parents : Elem → List Elem → Nat → List Elem
  | _, _, 0 => []
  | current, ancestors, fuel + 1 =>
      if current.tag_name = "body" then []
      else
        match ancestors with
        | [] => []
        | parent :: rest => parent :: tested_parents parent rest fuel

/-- The acceptance predicate the claim about the locator states, modelled
from the spec: the ancestor text must contain a library-id label and
either a 4-digit year token or a platform token.  It differs from
is_complete_ad_card, which only looks for the literal strings
"2025"/"2024". -/
def claimAncestorPredicate (e : Elem) : Bool :=
  let t := e.text
  (strContains t "라이브러리 ID:" || strContains t "Library ID:")
  && ((searchToks false [Tok.rep Char.isDigit 4 (some 4) false] t.data).isSome
      || strContains t "Facebook" || strContains t "Instagram" || strContains t "플랫폼")

/-! ## Scroll loop (BaseScraper.scroll_to_bottom, config.Config) -/

/-- Config.MAX_SCROLL_ATTEMPTS. -/
def MAX_SCROLL_ATTEMPTS : Nat := 50

/-- Config.SELENIUM_TIMEOUT (seconds); kept for completeness. -/
def SELENIUM_TIMEOUT : Nat := 10

/-- The scroll loop.  heights e is the document scrollHeight measured
after e scroll executions (heights 0 is the initial measurement);
remaining is max_scrolls - scroll_count, so the loop guard
scroll_count < max_scrolls is remaining > 0.  Returns the source's
scroll_count together with the number of scroll executions. -/
def scrollGo (heights : Nat → Nat) : Nat → Nat → Nat → Nat → Nat × Nat
  | 0, scroll_count, executed, _ => (scroll_count, executed)
  | remaining + 1, scroll_count, executed, last_height =>
      let executed2 := executed + 1
      let new_height := heights executed2
      if new_height = last_height then (scroll_count, executed2)
      else scrollGo heights remaining (scroll_count + 1) executed2 new_height

/-- BaseScraper.scroll_to_bottom: None for max_scrolls selects
Config.MAX_SCROLL_ATTEMPTS.  First component: the returned scroll_count;
second: the number of scrolls actually executed. -/
def scroll_to_bottom (heights : Nat → Nat) (max_scrolls : Option Nat) : Nat × Nat :=
  let m := max_scrolls.getD MAX_SCROLL_ATTEMPTS
  scrollGo heights m 0 0 (heights 0)

/-! ## Search URL builder and run prefix (FacebookScraper._build_search_url,
scrape_ads) -/

/-- Config.FACEBOOK_AD_LIBRARY_URL. -/
def FACEBOOK_AD_LIBRARY_URL : String := "https://www.facebook.com/ads/library"

/-- The search_params dictionary; a missing key is none (string values
assumed, as in the intended use). -/
structure SearchParams where
  /-- search_params.get('country', 'US'). -/
  country : Option String := none
  /-- search_params.get('page_id', ''). -/
  page_id : Option String := none
  /-- search_params.get('media_type', ''). -/
  media_type : Option String := none
  /-- search_params.get('active_status', ''). -/
  active_status : Option String := none
deriving DecidableEq

/-- FacebookScraper._build_search_url: assembles the parameter list and
raises ValueError (modelled by Except.error with the exception message)
when page_id is missing or empty. -/
def build_search_url (base_url : String) (sp : SearchParams) : Except String String :=
  let country := sp.country.getD "US"
  let params := ["country=" ++ country, "active_status=active", "ad_type=all",
                 "is_targeted_country=false", "media_type=all"]
  let page_id := sp.page_id.getD ""
  if page_id = "" then Except.error "page_id is required for Facebook ad scraping"
  else
    let params := params ++ ["search_type=page", "view_all_page_id=" ++ page_id]
    let media_type := sp.media_type.getD ""
    let params := if media_type ≠ "" && media_type ≠ "all"
      then (params.filter (fun p => !strStarts p "media_type=")) ++ ["media_type=" ++ media_type]
      else params
    let active_status := sp.active_status.getD ""
    let params := if active_status ≠ "" && active_status ≠ "active"
      then (params.filter (fun p => !strStarts p "active_status=")) ++ ["active_status=" ++ active_status]
      else params
    Except.ok (base_url ++ "?" ++ String.intercalate "&" params)

/-- Observable outcome of one scrape_ads generator run. -/
structure ScrapeRunResult where
  /-- The exception propagated out of the generator, if any. -/
  raised : Option String
  /-- Whether navigate_to_page was invoked. -/
  navigated : Bool
  /-- The orchestrator state at the end of the run. -/
  state : ScrapeState
deriving DecidableEq

/-- The scrape_ads generator body: build the search URL (propagating the
ValueError before any navigation), navigate (a navigation exception
records an error and ends the run with no cards attempted), then run the
per-card loop over the located cards.  Waiting and scrolling have no
observable effect on the emitted records and are elided. -/
def scrape_ads_model (sp : Option SearchParams) (nav_exc : Option String)
    (now : Nat) (cards : List Card) : ScrapeRunResult :=
  match build_search_url FACEBOOK_AD_LIBRARY_URL (sp.getD {}) with
  | Except.error e => ⟨some e, false, initState⟩
  | Except.ok _ =>
      match nav_exc with
      | some msg => ⟨none, true, { initState with errors := ["Navigation error: " ++ msg] }⟩
      | none => ⟨none, true, scrape_ads_run now cards initState⟩

/-! ## Concrete inputs used by the claim instances -/

/-- A card whose text parses to library id 123456. -/
def cardA : Card :=
  { text := Except.ok "Library ID: 123456 Facebook"
  , imgs := [], button_hrefs := [], anchors := []
  , mv_ctx := ⟨false, false, false, [], false⟩ }

/-- A second card with the same library id. -/
def cardB : Card :=
  { text := Except.ok "라이브러리 ID: 123456 Instagram"
  , imgs := [], button_hrefs := [], anchors := []
  , mv_ctx := ⟨false, false, false, [], false⟩ }

/-- A card whose text read raises. -/
def cardBad : Card :=
  { text := Except.error "stale element reference"
  , imgs := [], button_hrefs := [], anchors := []
  , mv_ctx := ⟨false, false, false, [], false⟩ }

/-- A card bearing the multiple-versions marker whose modal would yield
one image URL. -/
def cardMV : Card :=
  { text := Except.ok "Library ID: 777 Facebook"
  , imgs := [], button_hrefs := [], anchors := []
  , mv_ctx := ⟨true, true, true, ["https://scontent.example/u1.jpg"], false⟩ }

/-- Image (a): 60x60, URL bearing the profile_picture fingerprint. -/
def imgA : Img :=
  { src := "https://scontent.xx.fbcdn.net/profile_picture/a.jpg"
  , attr_width := 60, attr_height := 60, natural_width := 0, natural_height := 0
  , parent_classes := "", rect_y := some 10 }

/-- Image (b): 100x100 square CDN image below the content-area threshold. -/
def imgB : Img :=
  { src := "https://scontent.xx.fbcdn.net/v/b.jpg"
  , attr_width := 100, attr_height := 100, natural_width := 0, natural_height := 0
  , parent_classes := "", rect_y := some 10 }

/-- Image (c): 800x500 rectangular CDN image positioned below y=50. -/
def imgC : Img :=
  { src := "https://scontent.xx.fbcdn.net/v/c.jpg"
  , attr_width := 800, attr_height := 500, natural_width := 0, natural_height := 0
  , parent_classes := "", rect_y := some 120 }

/-- The marker element of the locator counterexample. -/
def markerElem : Elem := ⟨"div", "Library ID: 99"⟩

/-- Its parent: contains the marker label and the 4-digit year token 1999
but neither "2025"/"2024" nor a platform token. -/
def parentElem : Elem := ⟨"div", "Library ID: 99 since 1999"⟩

/-- A run state in which 123456 has already been yielded. -/
def dupState : ScrapeState := ⟨["123456"], 1, [], []⟩

/-- The record extracted from cardB. -/
def adB : AdData :=
  { platform := "facebook", scraped_at := 0, library_id := "123456", start_date := ""
  , platforms := ["Instagram"], thumbnail_url := "", learn_more_url := ""
  , multiple_versions_images := [] }

/-! ## Helper lemmas -/

/-- Run-state invariant: every yielded record has a non-empty library id
recorded in the seen-set, and the yielded ids are pairwise distinct. -/
def stateInv (st : ScrapeState) : Prop :=
  (∀ ad ∈ st.yielded, ad.library_id ≠ "" ∧ ad.library_id ∈ st.processed_library_ids)
  ∧ (st.yielded.map (fun a => a.library_id)).Nodup

theorem step_preserves_inv (now : Nat) (st : ScrapeState) (ic : Nat × Card)
    (h : stateInv st) : stateInv (scrape_ads_step now st ic) := by
  obtain ⟨h1, h2⟩ := h
  unfold scrape_ads_step
  rcases hsc : scrape_ad_card now ic.2 with _ | ad
  · exact ⟨h1, h2⟩
  · simp only []
    split_ifs with hne hmem
    · exact ⟨h1, h2⟩
    · refine ⟨?_, ?_⟩
      · intro a ha
        rcases List.mem_append.mp ha with ha | ha
        · obtain ⟨hne2, hmem2⟩ := h1 a ha
          exact ⟨hne2, List.mem_append_left _ hmem2⟩
        · rw [List.mem_singleton.mp ha]
          exact ⟨hne, List.mem_append_right _ (List.mem_singleton_self _)⟩
      · rw [List.map_append]
        refine List.Nodup.append h2 (List.nodup_singleton _) ?_
        intro x hx hx2
        simp only [List.map_cons, List.map_nil, List.mem_singleton] at hx2
        subst hx2
        obtain ⟨a, ha, heq⟩ := List.mem_map.mp hx
        exact hmem (heq ▸ (h1 a ha).2)
    · exact ⟨h1, h2⟩

theorem run_preserves_inv (now : Nat) (l : List (Nat × Card)) (st : ScrapeState)
    (h : stateInv st) : stateInv (l.foldl (scrape_ads_step now) st) := by
  induction l generalizing st with
  | nil => exact h
  | cons p l ih => exact ih _ (step_preserves_inv now st p h)

theorem scrape_ad_card_text_error (now : Nat) (c : Card) (m : String)
    (h : c.text = Except.error m) : scrape_ad_card now c = none := by
  unfold scrape_ad_card
  rw [h]

theorem step_index_free (now : Nat) (st : ScrapeState) (i j : Nat) (c : Card) :
    scrape_ads_step now st (i, c) = scrape_ads_step now st (j, c) := rfl

theorem foldl_enumFrom_shift (now : Nat) (l : List Card) :
    ∀ (k k2 : Nat) (st : ScrapeState),
      (l.enumFrom k).foldl (scrape_ads_step now) st
        = (l.enumFrom k2).foldl (scrape_ads_step now) st := by
  induction l with
  | nil => intro k k2 st; rfl
  | cons c l ih =>
      intro k k2 st
      simp only [List.enumFrom, List.foldl]
      rw [step_index_free now st k k2 c]
      exact ih (k + 1) (k2 + 1) _

theorem run_skip_error_aux (now : Nat) (c : Card) (m : String)
    (hc : c.text = Except.error m) :
    ∀ (l1 l2 : List Card) (k : Nat) (st : ScrapeState),
      ((l1 ++ c :: l2).enumFrom k).foldl (scrape_ads_step now) st
        = ((l1 ++ l2).enumFrom k).foldl (scrape_ads_step now) st := by
  intro l1
  induction l1 with
  | nil =>
      intro l2 k st
      simp only [List.nil_append, List.enumFrom, List.foldl]
      have hstep : scrape_ads_step now st (k, c) = st := by
        unfold scrape_ads_step
        rw [show scrape_ad_card now (k, c).2 = none from scrape_ad_card_text_error now c m hc]
      rw [hstep]
      exact foldl_enumFrom_shift now l2 (k + 1) k st
  | cons a l1 ih =>
      intro l2 k st
      simp only [List.cons_append, List.enumFrom, List.foldl]
      exact ih l2 (k + 1) _

theorem pickBestImg_spec (best : Img) (cs : List Img) :
    ∃ l1 l2, best :: cs = l1 ++ pickBestImg best cs :: l2
      ∧ (∀ d ∈ l1, totalScore d < totalScore (pickBestImg best cs))
      ∧ (∀ d ∈ l2, totalScore d ≤ totalScore (pickBestImg best cs)) := by
  induction cs generalizing best with
  | nil =>
      refine ⟨[], [], rfl, ?_, ?_⟩ <;> intro d hd <;> simp at hd
  | cons c cs ih =>
      by_cases h : totalScore c > totalScore best
      · have hred : pickBestImg best (c :: cs) = pickBestImg c cs := by
          conv_lhs => rw [pickBestImg]
          rw [if_pos h]
        obtain ⟨m1, m2, heq, hlt, hle⟩ := ih c
        refine ⟨best :: m1, m2, ?_, ?_, ?_⟩
        · rw [hred, List.cons_append, ← heq]
        · intro d hd
          rw [hred]
          rcases List.mem_cons.mp hd with rfl | hd
          · have hcr : totalScore c ≤ totalScore (pickBestImg c cs) := by
              have hcin : c ∈ m1 ++ pickBestImg c cs :: m2 := heq ▸ List.mem_cons_self c cs
              rcases List.mem_append.mp hcin with hm | hm
              · exact le_of_lt (hlt _ hm)
              · rcases List.mem_cons.mp hm with he | hm
                · exact le_of_eq (congrArg totalScore he)
                · exact hle _ hm
            exact lt_of_lt_of_le h hcr
          · exact hlt _ hd
        · intro d hd; rw [hred]; exact hle _ hd
      · have hred : pickBestImg best (c :: cs) = pickBestImg best cs := by
          conv_lhs => rw [pickBestImg]
          rw [if_neg h]
        have hcle : totalScore c ≤ totalScore best := not_lt.mp h
        obtain ⟨m1, m2, heq, hlt, hle⟩ := ih best
        cases m1 with
        | nil =>
            rw [List.nil_append] at heq
            injection heq with h1 h2
            refine ⟨[], c :: cs, ?_, ?_, ?_⟩
            · rw [hred, List.nil_append, ← h1]
            · intro d hd; simp at hd
            · intro d hd
              rw [hred, ← h1]
              rcases List.mem_cons.mp hd with rfl | hd
              · exact hcle
              · have hdm := hle d (h2 ▸ hd)
                rw [← h1] at hdm
                exact hdm
        | cons a m1 =>
            rw [List.cons_append] at heq
            injection heq with h1 h2
            have hbest_lt : totalScore best < totalScore (pickBestImg best cs) := by
              refine hlt best ?_
              rw [h1]
              exact List.mem_cons_self a m1
            refine ⟨best :: c :: m1, m2, ?_, ?_, ?_⟩
            · rw [hred, List.cons_append, List.cons_append, ← h2]
            · intro d hd
              rw [hred]
              rcases List.mem_cons.mp hd with rfl | hd
              · exact hbest_lt
              · rcases List.mem_cons.mp hd with rfl | hd
                · exact lt_of_le_of_lt hcle hbest_lt
                · refine hlt d ?_
                  exact List.mem_cons_of_mem a hd
            · intro d hd
              rw [hred]
              exact hle _ hd

theorem walk_eq_find (fuel : Nat) :
    ∀ (current : Elem) (anc : List Elem),
      find_card_for_marker current anc fuel
        = (tested_parents current anc fuel).find? is_complete_ad_card := by
  induction fuel with
  | zero => intro current anc; simp [find_card_for_marker, tested_parents, List.find?]
  | succ f ih =>
      intro current anc
      unfold find_card_for_marker tested_parents
      by_cases hb : current.tag_name = "body"
      · rw [if_pos hb, if_pos hb]; rfl
      · rw [if_neg hb, if_neg hb]
        cases anc with
        | nil => rfl
        | cons p rest =>
            cases hp : is_complete_ad_card p with
            | true => simp [List.find?, hp]
            | false => simp [List.find?, hp, ih p rest]

theorem tested_parents_take (fuel : Nat) :
    ∀ (current : Elem) (anc : List Elem),
      ∃ k, k ≤ fuel ∧ tested_parents current anc fuel = anc.take k := by
  induction fuel with
  | zero => intro c anc; exact ⟨0, Nat.le_refl 0, by simp [tested_parents]⟩
  | succ f ih =>
      intro c anc
      unfold tested_parents
      by_cases hb : c.tag_name = "body"
      · rw [if_pos hb]; exact ⟨0, Nat.zero_le _, rfl⟩
      · rw [if_neg hb]
        cases anc with
        | nil => exact ⟨0, Nat.zero_le _, rfl⟩
        | cons p rest =>
            obtain ⟨k, hk, heq⟩ := ih p rest
            refine ⟨k + 1, Nat.succ_le_succ hk, ?_⟩
            show p :: tested_parents p rest f = List.take (k + 1) (p :: rest)
            rw [heq, List.take_succ_cons]

theorem scrollGo_spec (heights : Nat → Nat) :
    ∀ (r c : Nat),
      c ≤ (scrollGo heights r c c (heights c)).1
      ∧ (scrollGo heights r c c (heights c)).1 ≤ c + r
      ∧ ((scrollGo heights r c c (heights c)).1 < c + r →
          (scrollGo heights r c c (heights c)).2 = (scrollGo heights r c c (heights c)).1 + 1
          ∧ heights ((scrollGo heights r c c (heights c)).1 + 1)
              = heights (scrollGo heights r c c (heights c)).1)
      ∧ ((scrollGo heights r c c (heights c)).1 = c + r →
          (scrollGo heights r c c (heights c)).2 = c + r)
      ∧ (∀ j, c ≤ j → j < (scrollGo heights r c c (heights c)).1 →
          heights (j + 1) ≠ heights j) := by
  intro r
  induction r with
  | zero =>
      intro c
      have hres : scrollGo heights 0 c c (heights c) = (c, c) := by
        simp [scrollGo]
      rw [hres]
      dsimp only
      refine ⟨Nat.le_refl c, by omega, ?_, ?_, ?_⟩
      · intro h; exact absurd h (by omega)
      · intro _; omega
      · intro j hj hj2; exact absurd hj2 (by omega)
  | succ r ih =>
      intro c
      have hred : scrollGo heights (r + 1) c c (heights c)
          = if heights (c + 1) = heights c then (c, c + 1)
            else scrollGo heights r (c + 1) (c + 1) (heights (c + 1)) := by
        simp only [scrollGo]
      by_cases heq : heights (c + 1) = heights c
      · rw [hred, if_pos heq]
        refine ⟨Nat.le_refl c, by omega, ?_, ?_, ?_⟩
        · intro _; exact ⟨rfl, heq⟩
        · intro hcap; omega
        · intro j hj hj2; omega
      · rw [hred, if_neg heq]
        obtain ⟨i1, i2, i3, i4, i5⟩ := ih (c + 1)
        refine ⟨by omega, by omega, ?_, ?_, ?_⟩
        · intro hlt
          exact i3 (by omega)
        · intro hcap
          have := i4 (by omega)
          omega
        · intro j hj hj2
          rcases Nat.eq_or_lt_of_le hj with rfl | hj3
          · exact fun hcontra => heq hcontra
          · exact i5 j (by omega) hj2

/-! ## Claims -/

/-- C1: for each of the five documented literal inputs, the date parser
(_extract_start_date_simple) returns exactly the stated canonical output:
the two Korean full dates map to 2025-06-26, the two English phrasings to
2025-07-01, and the Korean month-only input to 2025-07-01. -/
theorem date_parser_examples :
    extract_start_date_simple "2025. 6. 26.에 게재 시작함" = "2025-06-26"
    ∧ extract_start_date_simple "2025년 6월 26일" = "2025-06-26"
    ∧ extract_start_date_simple "Started running on Jul 1, 2025" = "2025-07-01"
    ∧ extract_start_date_simple "Started running on 1 Jul 2025" = "2025-07-01"
    ∧ extract_start_date_simple "2025년 7월" = "2025-07-01" :=
  ⟨by decide, by decide, by decide, by decide, by decide⟩

/-- C2 (failing input): on an input whose first matching date rule
captures day 32, _extract_start_date_simple returns the malformed string
"2025-06-32" instead of treating the match as a non-match: the source's
except ValueError around the f-string is dead code because formatting
integers cannot raise. -/
theorem date_parser_day32_malformed :
    extract_start_date_simple "2025년 6월 32일" = "2025-06-32" := by decide

/-- C3: within a run, every yielded record has a non-empty library_id, no
two yielded records share a library_id, a later card whose id is already
in the seen-set leaves the state unchanged (dropped silently, no error),
and two cards both parsing to 123456 yield exactly one record. -/
theorem scrape_ads_dedup :
    (∀ (now : Nat) (cards : List Card),
        (∀ ad ∈ (scrape_ads_run now cards initState).yielded, ad.library_id ≠ "")
        ∧ ((scrape_ads_run now cards initState).yielded.map (fun a => a.library_id)).Nodup)
    ∧ (∀ (now : Nat) (st : ScrapeState) (i : Nat) (c : Card) (ad : AdData),
        scrape_ad_card now c = some ad →
        ad.library_id ∈ st.processed_library_ids →
        scrape_ads_step now st (i, c) = st)
    ∧ ((scrape_ads_run 0 [cardA, cardB] initState).yielded.map (fun a => a.library_id))
        = ["123456"] := by
  refine ⟨?_, ?_, ?_⟩
  · intro now cards
    have hinv : stateInv initState :=
      ⟨fun a ha => absurd ha (List.not_mem_nil a), List.nodup_nil⟩
    have h := run_preserves_inv now (cards.enum) initState hinv
    exact ⟨fun ad ha => (h.1 ad ha).1, h.2⟩
  · intro now st i c ad hsc hmem
    unfold scrape_ads_step
    rw [show scrape_ad_card now (i, c).2 = some ad from hsc]
    dsimp only
    by_cases h1 : ad.library_id ≠ ""
    · rw [if_pos h1, if_pos hmem]
    · rw [if_neg h1]
  · decide

/-- C3 witness: a card whose id 123456 is already in the seen-set leaves
the concrete state unchanged. -/
theorem scrape_ads_dedup_witness :
    scrape_ads_step 0 dupState (1, cardB) = dupState :=
  scrape_ads_dedup.2.1 0 dupState 1 cardB adB (by decide) (by decide)

/-- C4 (amended): a card whose text read raises is caught inside
_scrape_ad_card (returning None); the loop records nothing in self.errors
and the run over the remaining cards is unchanged — one throwing card
never aborts the run, but no error-list entry is appended either. -/
theorem scrape_ads_error_swallowed :
    (∀ (now : Nat) (st : ScrapeState) (i : Nat) (c : Card) (m : String),
        c.text = Except.error m → scrape_ads_step now st (i, c) = st)
    ∧ (∀ (now : Nat) (l1 : List Card) (c : Card) (l2 : List Card) (m : String)
        (st : ScrapeState), c.text = Except.error m →
        scrape_ads_run now (l1 ++ c :: l2) st = scrape_ads_run now (l1 ++ l2) st) := by
  constructor
  · intro now st i c m hc
    unfold scrape_ads_step
    rw [show scrape_ad_card now (i, c).2 = none from scrape_ad_card_text_error now c m hc]
  · intro now l1 c l2 m st hc
    show ((l1 ++ c :: l2).enumFrom 0).foldl (scrape_ads_step now) st
        = ((l1 ++ l2).enumFrom 0).foldl (scrape_ads_step now) st
    exact run_skip_error_aux now c m hc l1 l2 0 st

/-- C4 counterexample: running the loop over a throwing card followed by a
good card leaves self.errors empty (the claim requires an entry with the
card's index) while the good card is still processed. -/
theorem scrape_ads_error_not_recorded :
    (scrape_ads_run 0 [cardBad, cardA] initState).errors = []
    ∧ ((scrape_ads_run 0 [cardBad, cardA] initState).yielded.map (fun a => a.library_id))
        = ["123456"]
    ∧ cardBad.text = Except.error "stale element reference" := by decide

/-- C4 witness: prepending the throwing card to a run changes nothing. -/
theorem scrape_ads_error_swallowed_witness :
    scrape_ads_run 0 ([] ++ cardBad :: [cardA]) initState
      = scrape_ads_run 0 ([] ++ [cardA]) initState :=
  scrape_ads_error_swallowed.2 0 [] cardBad [cardA] "stale element reference" initState rfl

/-- C5 (amended): the platform parser never returns an empty list, only
canonical names, returns exactly [Facebook] when no token is found, and
returns [Facebook, Instagram] when both exact-case tokens are present and
the Korean platform label is absent; the label tokens are the exact-case
variants Facebook/facebook and Instagram/instagram only, and the Korean
label contributes a second "Facebook", so duplicates are possible. -/
theorem platforms_spec (text : String) :
    extract_platforms_simple text ≠ []
    ∧ (∀ p ∈ extract_platforms_simple text, p = "Facebook" ∨ p = "Instagram")
    ∧ ((strContains text "Facebook" || strContains text "facebook") = true →
        (strContains text "Instagram" || strContains text "instagram") = true →
        strContains text "플랫폼" = false →
        extract_platforms_simple text = ["Facebook", "Instagram"])
    ∧ ((strContains text "Facebook" || strContains text "facebook") = false →
        (strContains text "Instagram" || strContains text "instagram") = false →
        strContains text "플랫폼" = false →
        extract_platforms_simple text = ["Facebook"]) := by
  unfold extract_platforms_simple
  cases hf : (strContains text "Facebook" || strContains text "facebook") <;>
    cases hi : (strContains text "Instagram" || strContains text "instagram") <;>
      cases hp : strContains text "플랫폼" <;> simp_all

/-- C5 counterexample: with both the Facebook token and the Korean
platform label the result contains "Facebook" twice (the claim forbids
duplicates), and the upper-case token FACEBOOK is not recognized (the
claim requires case-insensitive matching), so the Facebook entry is
missing. -/
theorem platforms_duplicates_and_case :
    extract_platforms_simple "Facebook 플랫폼" = ["Facebook", "Facebook"]
    ∧ extract_platforms_simple "FACEBOOK Instagram" = ["Instagram"] := by decide

/-- C5 witness: both exact-case tokens without the Korean label give
exactly [Facebook, Instagram]. -/
theorem platforms_spec_witness :
    extract_platforms_simple "Facebook Instagram" = ["Facebook", "Instagram"] :=
  (platforms_spec "Facebook Instagram").2.2.1 (by decide) (by decide) (by decide)

/-- C6: the thumbnail scorer returns "" when no candidate survives the
filters; otherwise it returns the URL of a surviving candidate with the
maximal total score such that every earlier survivor scores strictly
lower (first wins on ties); the total is
size + 10000*aspect + 20000*size_bonus + 5000*position with the 1.2,
50000 and 50px thresholds; and among the three documented synthetic
candidates it selects image (c). -/
theorem thumbnail_scorer_spec (imgs : List Img) :
    (imgs.filter acceptedImg = [] → extract_thumbnail_url imgs = "")
    ∧ (∀ c cs, imgs.filter acceptedImg = c :: cs →
        ∃ best l1 l2, extract_thumbnail_url imgs = best.src
          ∧ c :: cs = l1 ++ best :: l2
          ∧ (∀ d ∈ l1, totalScore d < totalScore best)
          ∧ (∀ d ∈ l2, totalScore d ≤ totalScore best))
    ∧ (∀ i : Img, totalScore i = (sizeScore i : ℚ)
        + 10000 * aspectScore i + 20000 * sizeBonus i + 5000 * positionScore i)
    ∧ extract_thumbnail_url [imgA, imgB, imgC] = imgC.src := by
  refine ⟨?_, ?_, ?_, ?_⟩
  · intro h; unfold extract_thumbnail_url; rw [h]
  · intro c cs h
    unfold extract_thumbnail_url
    rw [h]
    obtain ⟨l1, l2, heq, hlt, hle⟩ := pickBestImg_spec c cs
    exact ⟨pickBestImg c cs, l1, l2, rfl, heq, hlt, hle⟩
  · intro i; unfold totalScore; ring
  · have hfil : List.filter acceptedImg [imgA, imgB, imgC] = [imgB, imgC] := by decide
    have hb : totalScore imgB = 10000 := by
      simp only [totalScore, sizeScore, aspectScore, sizeBonus, positionScore,
        resolvedWidth, resolvedHeight, imgB]
      norm_num
    have hc : totalScore imgC = 441000 := by
      simp only [totalScore, sizeScore, aspectScore, sizeBonus, positionScore,
        resolvedWidth, resolvedHeight, imgC]
      norm_num
    have hgt : totalScore imgC > totalScore imgB := by rw [hb, hc]; norm_num
    unfold extract_thumbnail_url
    rw [hfil]
    show (pickBestImg imgB [imgC]).src = imgC.src
    conv_lhs => rw [pickBestImg]
    rw [if_pos hgt]
    conv_lhs => rw [pickBestImg]

/-- C6 witness: applied to the three documented candidates, of which (b)
and (c) survive the filters, the selection is a survivor of maximal
score. -/
theorem thumbnail_scorer_spec_witness :
    ∃ best l1 l2, extract_thumbnail_url [imgA, imgB, imgC] = best.src
      ∧ imgB :: [imgC] = l1 ++ best :: l2
      ∧ (∀ d ∈ l1, totalScore d < totalScore best)
      ∧ (∀ d ∈ l2, totalScore d ≤ totalScore best) :=
  (thumbnail_scorer_spec [imgA, imgB, imgC]).2.1 imgB [imgC] (by decide)

/-- C7 (amended): for each marker element, the locator tests at most five
ancestors (a prefix of the chain, stopping at a body element) and accepts
the first one satisfying _is_complete_ad_card — whose year test is the
literal substrings "2025"/"2024", not an arbitrary 4-digit year token;
when no tested ancestor qualifies, the walk yields none (no card, no
exception). -/
theorem locator_walk_spec (marker : Elem) (anc : List Elem) :
    find_card_for_marker marker anc 5
        = (tested_parents marker anc 5).find? is_complete_ad_card
    ∧ (tested_parents marker anc 5).length ≤ 5
    ∧ ∃ k, k ≤ 5 ∧ tested_parents marker anc 5 = anc.take k := by
  obtain ⟨k, hk, heq⟩ := tested_parents_take 5 marker anc
  refine ⟨walk_eq_find 5 marker anc, ?_, ⟨k, hk, heq⟩⟩
  rw [heq, List.length_take]
  exact le_trans (Nat.min_le_left _ _) hk

/-- C7 counterexample: a parent whose text has the marker label and the
4-digit year token 1999 satisfies the claim's acceptance predicate, yet
the walk rejects it (the code only looks for "2025"/"2024") and produces
no card. -/
theorem locator_year_token_counterexample :
    claimAncestorPredicate parentElem = true
    ∧ find_card_for_marker markerElem [parentElem] 5 = none := by decide

/-- C8 (amended): the orchestrator never attempts multi-version
extraction — the call is commented out in _scrape_ad_card, so every
produced record has an empty multiple_versions_images — while the
_extract_multiple_versions helper itself always attempts to close the
overlay whenever it opened it, on the normal path and in its except
handler. -/
theorem multiple_versions_disabled :
    (∀ (now : Nat) (c : Card) (ad : AdData),
        scrape_ad_card now c = some ad → ad.multiple_versions_images = [])
    ∧ (∀ ctx : ModalCtx, (extract_multiple_versions ctx).opened = true →
        (extract_multiple_versions ctx).close_attempted = true) := by
  constructor
  · intro now c ad h
    cases hct : c.text with
    | error m =>
        rw [scrape_ad_card_text_error now c m hct] at h
        exact Option.noConfusion h
    | ok t =>
        unfold scrape_ad_card at h
        rw [hct] at h
        dsimp only at h
        by_cases h0 : t = ""
        · rw [if_pos h0] at h
          exact Option.noConfusion h
        · rw [if_neg h0] at h
          by_cases h1 : extract_library_id_simple t = ""
          · rw [if_pos h1] at h
            exact Option.noConfusion h
          · rw [if_neg h1] at h
            cases h
            rfl
  · intro ctx h
    rcases ctx with ⟨i, b, k, imgs, t⟩
    cases i <;> cases b <;> cases k <;> cases t <;> simp_all [extract_multiple_versions]

/-- C8 counterexample: a processed card bearing the multiple-versions
marker still yields a record with an empty multiple_versions_images even
though running the extractor on its modal context would produce one URL —
the orchestrator never invokes it. -/
theorem multiple_versions_not_attempted :
    (scrape_ad_card 0 cardMV).map (fun a => a.multiple_versions_images) = some []
    ∧ (extract_multiple_versions cardMV.mv_ctx).urls = ["https://scontent.example/u1.jpg"]
    ∧ cardMV.mv_ctx.has_indicator = true := by decide

/-- C8 witness: on the concrete modal context that opens the overlay, the
close step is attempted. -/
theorem multiple_versions_disabled_witness :
    (extract_multiple_versions cardMV.mv_ctx).close_attempted = true :=
  multiple_versions_disabled.2 cardMV.mv_ctx (by decide)

/-- C9 (amended): scroll_to_bottom always terminates, executes at most
max_scrolls scrolls (default MAX_SCROLL_ATTEMPTS = 50), stops early
exactly when a measurement equals the previous one (a decrease does not
stop it), and the returned scroll_count omits the final unchanged-height
scroll: on an early stop the count is one less than the scrolls executed;
at the cap the two coincide. -/
theorem scroll_loop_spec (heights : Nat → Nat) (max_scrolls : Option Nat) :
    (scroll_to_bottom heights max_scrolls).1 ≤ max_scrolls.getD MAX_SCROLL_ATTEMPTS
    ∧ (scroll_to_bottom heights max_scrolls).2 ≤ max_scrolls.getD MAX_SCROLL_ATTEMPTS
    ∧ ((scroll_to_bottom heights max_scrolls).1 < max_scrolls.getD MAX_SCROLL_ATTEMPTS →
        (scroll_to_bottom heights max_scrolls).2 = (scroll_to_bottom heights max_scrolls).1 + 1
        ∧ heights ((scroll_to_bottom heights max_scrolls).1 + 1)
            = heights ((scroll_to_bottom heights max_scrolls).1))
    ∧ ((scroll_to_bottom heights max_scrolls).1 = max_scrolls.getD MAX_SCROLL_ATTEMPTS →
        (scroll_to_bottom heights max_scrolls).2 = max_scrolls.getD MAX_SCROLL_ATTEMPTS)
    ∧ (∀ j, j < (scroll_to_bottom heights max_scrolls).1 → heights (j + 1) ≠ heights j) := by
  have hST : scroll_to_bottom heights max_scrolls
      = scrollGo heights (max_scrolls.getD MAX_SCROLL_ATTEMPTS) 0 0 (heights 0) := rfl
  rw [hST]
  obtain ⟨h1, h2, h3, h4, h5⟩ :=
    scrollGo_spec heights (max_scrolls.getD MAX_SCROLL_ATTEMPTS) 0
  refine ⟨by omega, ?_, ?_, ?_, ?_⟩
  · rcases Nat.lt_or_ge (scrollGo heights (max_scrolls.getD MAX_SCROLL_ATTEMPTS) 0 0 (heights 0)).1
        (0 + max_scrolls.getD MAX_SCROLL_ATTEMPTS) with hlt | hge
    · have := (h3 hlt).1; omega
    · have := h4 (by omega); omega
  · intro hlt; exact h3 (by omega)
  · intro hcap; have := h4 (by omega); omega
  · intro j hj; exact h5 j (Nat.zero_le j) hj

/-- C9 counterexample: with a constant height the loop performs one
scroll but returns 0, so the return value is not the number of scrolls
performed; with a strictly decreasing height the loop never stops early
even though the height never increases. -/
theorem scroll_count_counterexample :
    scroll_to_bottom (fun _ => 1000) none = (0, 1)
    ∧ scroll_to_bottom (fun n => 1000 - n) (some 3) = (3, 3) := by decide

/-- C9 witness: on the constant-height page the loop stopped early, so
the executed count exceeds the returned count by one and the final two
measurements agree. -/
theorem scroll_loop_spec_witness :
    (scroll_to_bottom (fun _ => 1000) none).2 = (scroll_to_bottom (fun _ => 1000) none).1 + 1
    ∧ (fun _ : Nat => 1000) ((scroll_to_bottom (fun _ => 1000) none).1 + 1)
        = (fun _ : Nat => 1000) ((scroll_to_bottom (fun _ => 1000) none).1) :=
  (scroll_loop_spec (fun _ => 1000) none).2.2.1 (by decide)

/-- C10: for every search_params lacking a non-empty page_id (including
the None dictionary), the scrape_ads run raises the ValueError from
_build_search_url before any navigation and yields no record. -/
theorem missing_page_id_raises (sp : Option SearchParams) (nav_exc : Option String)
    (now : Nat) (cards : List Card)
    (h : (sp.getD {}).page_id.getD "" = "") :
    (scrape_ads_model sp nav_exc now cards).raised
        = some "page_id is required for Facebook ad scraping"
    ∧ (scrape_ads_model sp nav_exc now cards).navigated = false
    ∧ (scrape_ads_model sp nav_exc now cards).state.yielded = [] := by
  have hb : build_search_url FACEBOOK_AD_LIBRARY_URL (sp.getD {})
      = Except.error "page_id is required for Facebook ad scraping" := by
    simp only [build_search_url]
    rw [if_pos h]
  unfold scrape_ads_model
  rw [hb]
  exact ⟨rfl, rfl, rfl⟩

/-- C10 witness: the None search_params raises before navigation and
yields nothing. -/
theorem missing_page_id_raises_witness :
    (scrape_ads_model none none 0 []).raised
        = some "page_id is required for Facebook ad scraping"
    ∧ (scrape_ads_model none none 0 []).navigated = false
    ∧ (scrape_ads_model none none 0 []).state.yielded = [] :=
  missing_page_id_raises none none 0 [] rfl
